import Mathlib

/-!
Verification of the voice-services communications-gateway resource.

A shallow embedding, in Lean 4, of
`internal/services/voiceservices/voice_services_communications_gateway_resource.go`:
the flat configuration model, the expand/flatten translators between the flat
model and the nested remote-API shape, and the Create/Update/Read reconciler
logic, together with theorems settling the specification's claims about them.

Conventions of the embedding:
* A Go slice `[]T` is modelled as `GoSlice T := Option (List T)`: `none` is the
  nil slice, `some l` a non-nil slice with elements `l` (possibly empty).
* A Go pointer-to-slice `*[]T` is also modelled as `Option (List T)`: `none` is
  the nil pointer, `some l` a non-nil pointer to a slice with elements `l`.
  (A non-nil pointer to a nil slice is not produced by any code path modelled
  here, so the two levels are collapsed.)
* A Go `*T` for scalar `T` is `Option T`; a Go `map[string]string` is a list of
  key/value pairs (no code in this file inspects a map beyond copying it).
* The Go `interface{}` value produced by `json.Unmarshal` is `Option JsonVal`
  (`none` is the nil interface); `*interface{}` is `Option (Option JsonVal)`.
* The remote SDK's string-backed enumerations (`E911Type`, `TeamsCodecs`,
  `CommunicationsPlatform`, `Connectivity`,
  `AutoGeneratedDomainNameLabelScope`) are string types in Go and are modelled
  as `String` with named constants.
* `json.Unmarshal` and `json.Marshal` (external library) are passed in as
  functions: a decoder `String → Option (Option JsonVal)` (`none` = parse
  error) and an encoder `JsonVal → Option String` (`none` = marshal error).
* Remote calls are not performed; each reconciler function returns an outcome
  value.  The only constructor that corresponds to issuing the mutating
  `CreateOrUpdateThenPoll` remote call is the `ok` constructor carrying the
  payload sent to that call.
-/

set_option autoImplicit false

namespace VoiceServices

/-- A Go slice: `none` is the nil slice, `some l` a non-nil slice. -/
abbrev GoSlice (α : Type) : Type := Option (List α)

/-- Ranging over a Go slice: ranging over the nil slice yields nothing. -/
def goList {α : Type} : GoSlice α → List α
  | none => []
  | some l => l

/-- Go's `len` on a (possibly nil) slice. -/
def goLen {α : Type} (s : GoSlice α) : Nat := (goList s).length

/-- A decoded JSON value (the result of Go's `json.Unmarshal` into
`interface{}`, minus the nil interface which is modelled by `Option`). -/
inductive JsonVal where
  | null : JsonVal
  | bool : Bool → JsonVal
  | num : Int → JsonVal
  | str : String → JsonVal
  | arr : List JsonVal → JsonVal
  | obj : List (String × JsonVal) → JsonVal

/-- `communicationsgateways.E911TypeStandard`. -/
def E911TypeStandard : String := "Standard"

/-- `communicationsgateways.E911TypeDirectToEsrp`. -/
def E911TypeDirectToEsrp : String := "DirectToEsrp"

/-- Models `location.Normalize` from go-azure-helpers (an external
collaborator): lower-cases the input and removes every space, behaviourally
`strings.ReplaceAll(strings.ToLower(input), " ", "")`. -/
def location_Normalize (input : String) : String :=
  String.mk ((input.toList.map Char.toLower).filter (fun c => c ≠ ' '))

/-- `ServiceRegionPropertiesModel`: one entry of the flat model's
`service_location` set. -/
structure ServiceRegionPropertiesModel where
  Location : String := ""
  OperatorAddresses : GoSlice String := none
  AllowedMediaSourceAddressPrefixes : GoSlice String := none
  AllowedSignalingSourceAddressPrefixes : GoSlice String := none
  EsrpAddresses : GoSlice String := none
  deriving DecidableEq, Repr

/-- `CommunicationsGatewayModel`: the flat, user-facing configuration model. -/
structure CommunicationsGatewayModel where
  Name : String := ""
  ResourceGroupName : String := ""
  ApiBridge : String := ""
  AutoGeneratedDomainNameLabelScope : String := ""
  Codecs : String := ""
  Connectivity : String := ""
  E911Type : String := ""
  EmergencyDialStrings : GoSlice String := none
  Location : String := ""
  OnPremMcpEnabled : Bool := false
  Platforms : GoSlice String := none
  ServiceLocation : GoSlice ServiceRegionPropertiesModel := none
  Tags : List (String × String) := []
  MicrosoftTeamsVoicemailPilotNumber : String := ""
  deriving DecidableEq, Repr

/-- Remote SDK shape `communicationsgateways.PrimaryRegionProperties`. -/
structure PrimaryRegionProperties where
  AllowedMediaSourceAddressPrefixes : Option (List String) := none
  AllowedSignalingSourceAddressPrefixes : Option (List String) := none
  EsrpAddresses : Option (List String) := none
  OperatorAddresses : GoSlice String := none
  deriving DecidableEq, Repr

/-- Remote SDK shape `communicationsgateways.ServiceRegionProperties`. -/
structure ServiceRegionProperties where
  Name : String := ""
  PrimaryRegionProperties : PrimaryRegionProperties := {}
  deriving DecidableEq, Repr

/-- Remote SDK shape `communicationsgateways.CommunicationsGatewayProperties`. -/
structure CommunicationsGatewayProperties where
  ApiBridge : Option (Option JsonVal) := none
  AutoGeneratedDomainNameLabel : Option String := none
  AutoGeneratedDomainNameLabelScope : Option String := none
  Codecs : GoSlice String := none
  Connectivity : String := ""
  EmergencyDialStrings : Option (List String) := none
  E911Type : String := ""
  OnPremMcpEnabled : Option Bool := none
  Platforms : GoSlice String := none
  ProvisioningState : Option String := none
  ServiceLocations : GoSlice ServiceRegionProperties := none
  Status : Option String := none
  TeamsVoicemailPilotNumber : Option String := none

/-- Remote SDK shape `communicationsgateways.CommunicationsGateway`. -/
structure CommunicationsGateway where
  Id : Option String := none
  Location : String := ""
  Name : Option String := none
  Properties : Option CommunicationsGatewayProperties := none
  SystemData : Option Unit := none
  Tags : Option (List (String × String)) := none
  Type' : Option String := none

/-- Modelled from the spec: `utils.StringSlice` (repository code not included
in the sources): "an empty input slice must become a genuine empty collection,
but a slice that was never populated must become a nil pointer" — the nil
slice maps to the nil pointer, any non-nil slice to a non-nil pointer to its
elements. -/
def utils_StringSlice (input : GoSlice String) : Option (List String) :=
  match input with
  | none => none
  | some l => some l

/-- The loop body of `expandServiceRegionPropertiesModel`: one flat
service-location entry expanded into the remote shape. -/
def expandServiceRegionEntry (v : ServiceRegionPropertiesModel) :
    ServiceRegionProperties :=
  { Name := location_Normalize v.Location
    PrimaryRegionProperties :=
      { AllowedMediaSourceAddressPrefixes :=
          utils_StringSlice v.AllowedMediaSourceAddressPrefixes
        AllowedSignalingSourceAddressPrefixes :=
          utils_StringSlice v.AllowedSignalingSourceAddressPrefixes
        EsrpAddresses := utils_StringSlice v.EsrpAddresses
        OperatorAddresses := v.OperatorAddresses } }

/-- `expandServiceRegionPropertiesModel`: expands each flat service-location
entry into the remote shape; always returns a non-nil slice
(`make(..., 0)` in the source). -/
def expandServiceRegionPropertiesModel
    (inputList : GoSlice ServiceRegionPropertiesModel) :
    GoSlice ServiceRegionProperties :=
  some ((goList inputList).map expandServiceRegionEntry)

/-- `expandCommunicationsPlatformModel`: `if len(input) == 0 { return nil }`,
otherwise the element-wise conversion into the remote enumeration type. -/
def expandCommunicationsPlatformModel (input : GoSlice String) :
    GoSlice String :=
  if goLen input = 0 then none
  else some ((goList input).map (fun v => v))

/-- The loop body of `flattenServiceRegionPropertiesModel`: one remote
service-location entry flattened into the model shape.  Each
`if v.X != nil { output.X = *v.X }` of the source is the corresponding
`match`. -/
def flattenServiceRegionEntry (input : ServiceRegionProperties) :
    ServiceRegionPropertiesModel :=
  { Location := location_Normalize input.Name
    OperatorAddresses :=
      match input.PrimaryRegionProperties.OperatorAddresses with
      | none => none
      | some l => some l
    AllowedMediaSourceAddressPrefixes :=
      match input.PrimaryRegionProperties.AllowedMediaSourceAddressPrefixes with
      | none => none
      | some l => some l
    AllowedSignalingSourceAddressPrefixes :=
      match input.PrimaryRegionProperties.AllowedSignalingSourceAddressPrefixes with
      | none => none
      | some l => some l
    EsrpAddresses :=
      match input.PrimaryRegionProperties.EsrpAddresses with
      | none => none
      | some l => some l }

/-- `flattenServiceRegionPropertiesModel`: takes a pointer to a remote
service-location slice (`none` = nil pointer); always returns a non-nil model
slice. -/
def flattenServiceRegionPropertiesModel
    (inputList : Option (GoSlice ServiceRegionProperties)) :
    GoSlice ServiceRegionPropertiesModel :=
  match inputList with
  | none => some []
  | some sl => some ((goList sl).map flattenServiceRegionEntry)

/-- `flattenCommunicationsPlatformModel`: `if len(input) == 0 { return nil }`,
otherwise the element-wise conversion back to strings. -/
def flattenCommunicationsPlatformModel (input : GoSlice String) :
    GoSlice String :=
  if goLen input = 0 then none
  else some ((goList input).map (fun v => v))

/-- The loop body of `CustomizeDiff`: walks the service locations and returns
the first validation error, if any. -/
def customizeDiffLoop (name e911 : String) :
    List ServiceRegionPropertiesModel → Option String
  | [] => none
  | sls :: rest =>
    if e911 = E911TypeStandard then
      if goLen sls.EsrpAddresses > 0 then
        some ("the esrp_addresses of " ++ name ++
          " must not be provided for each service_location when e911_type is set to Standard")
      else customizeDiffLoop name e911 rest
    else
      if goLen sls.EsrpAddresses = 0 then
        some ("the esrp_addresses of " ++ name ++
          " must be provided for each service_location when e911_type is set to DirectToEsrp")
      else customizeDiffLoop name e911 rest

/-- `CustomizeDiff`: the pre-mutation cross-field validation; `some msg` is a
validation error, `none` success. -/
def customizeDiffFunc (model : CommunicationsGatewayModel) : Option String :=
  customizeDiffLoop model.Name model.E911Type (goList model.ServiceLocation)

/-- Outcome of the Create reconciler.  `ok payload` is the only outcome on
which the mutating `CreateOrUpdateThenPoll` remote call is issued, with
`payload` the resource it sends; every other constructor is an early return
before any remote mutation. -/
inductive CreateResult where
  | errCheckingPresence : CreateResult
  | requiresImport : CreateResult
  | errApiBridge : CreateResult
  | ok : CommunicationsGateway → CreateResult

/-- The resource Create sends to `CreateOrUpdateThenPoll`, given the
api-bridge interface value `v` produced by the (possibly skipped) decode:
lines 263–293 of the source.  `EmergencyDialStrings` is only set when the
model's slice is non-nil (`if model.EmergencyDialStrings != nil`). -/
def createPayload (model : CommunicationsGatewayModel) (v : Option JsonVal) :
    CommunicationsGateway :=
  { Location := location_Normalize model.Location
    Tags := some model.Tags
    Properties := some
      { ApiBridge := some v
        AutoGeneratedDomainNameLabelScope :=
          some model.AutoGeneratedDomainNameLabelScope
        Codecs := some [model.Codecs]
        Connectivity := model.Connectivity
        EmergencyDialStrings :=
          match model.EmergencyDialStrings with
          | none => none
          | some l => some l
        E911Type := model.E911Type
        OnPremMcpEnabled := some model.OnPremMcpEnabled
        Platforms := expandCommunicationsPlatformModel model.Platforms
        ServiceLocations :=
          expandServiceRegionPropertiesModel model.ServiceLocation
        TeamsVoicemailPilotNumber :=
          some model.MicrosoftTeamsVoicemailPilotNumber } }

/-- The Create reconciler.  The existence probe `client.Get` is summarised by
its two observable bits: `getHasError` (the returned error was non-nil) and
`getWasNotFound` (`response.WasNotFound` on the probe's HTTP response).
The api-bridge decode is skipped on an empty input, leaving the interface
value nil (`var apiBridgeValue interface{}`). -/
def createFunc (parse : String → Option (Option JsonVal))
    (model : CommunicationsGatewayModel)
    (getHasError getWasNotFound : Bool) : CreateResult :=
  if getHasError && !getWasNotFound then .errCheckingPresence
  else if !getWasNotFound then .requiresImport
  else
    let apiBridgeValue : Option (Option JsonVal) :=
      if model.ApiBridge ≠ "" then parse model.ApiBridge else some none
    match apiBridgeValue with
    | none => .errApiBridge
    | some v => .ok (createPayload model v)

/-- Outcome of the Update reconciler.  `ok payload` is the only outcome on
which the mutating `CreateOrUpdateThenPoll` remote call is issued.
`errPropertiesNil` stands for the fetched resource having a nil `Properties`
pointer, through which the Go code would dereference when a property-level
field is marked changed; no claim exercises that branch. -/
inductive UpdateResult where
  | errRetrieving : UpdateResult
  | errModelNil : UpdateResult
  | errPropertiesNil : UpdateResult
  | errApiBridge : UpdateResult
  | ok : CommunicationsGateway → UpdateResult

/-- The Update reconciler.  `changed` is the host's diff boundary
(`metadata.ResourceData.HasChange`); `getHasError` and `respModel` summarise
the pre-update `client.Get` (error bit and returned body). -/
def updateFunc (parse : String → Option (Option JsonVal))
    (changed : String → Bool)
    (model : CommunicationsGatewayModel)
    (getHasError : Bool) (respModel : Option CommunicationsGateway) :
    UpdateResult :=
  if getHasError then .errRetrieving
  else
    match respModel with
    | none => .errModelNil
    | some properties =>
      match properties.Properties with
      | none => .errPropertiesNil
      | some p0 =>
        let p1 := if changed "codecs" then
            { p0 with Codecs := some [model.Codecs] } else p0
        let p2 := if changed "e911_type" then
            { p1 with E911Type := model.E911Type } else p1
        let p3 := if changed "platforms" then
            { p2 with Platforms :=
                expandCommunicationsPlatformModel model.Platforms } else p2
        let p4 := if changed "service_location" then
            { p3 with ServiceLocations :=
                expandServiceRegionPropertiesModel model.ServiceLocation }
          else p3
        let afterApiBridge : Option CommunicationsGatewayProperties :=
          if changed "api_bridge" then
            if model.ApiBridge ≠ "" then
              match parse model.ApiBridge with
              | none => none
              | some v => some { p4 with ApiBridge := some v }
            else some { p4 with ApiBridge := none }
          else some p4
        match afterApiBridge with
        | none => .errApiBridge
        | some p5 =>
          let p6 := if changed "emergency_dial_strings" then
              { p5 with EmergencyDialStrings := model.EmergencyDialStrings }
            else p5
          let p7 := if changed "on_prem_mcp_enabled" then
              { p6 with OnPremMcpEnabled := some model.OnPremMcpEnabled }
            else p6
          let tagsAfter := if changed "tags" then some model.Tags
            else properties.Tags
          let p8 := if changed "microsoft_teams_voicemail_pilot_number" then
              { p7 with
                TeamsVoicemailPilotNumber :=
                  some model.MicrosoftTeamsVoicemailPilotNumber }
            else p7
          .ok { properties with Properties := some p8, Tags := tagsAfter }

/-- Outcome of the Read reconciler.  `markedGone` is `metadata.MarkAsGone`
(the non-error "resource gone" signal); `ok state` is the state encoded back
to the host. -/
inductive ReadResult where
  | markedGone : ReadResult
  | errRetrieving : ReadResult
  | errModelNil : ReadResult
  | errMarshal : ReadResult
  | ok : CommunicationsGatewayModel → ReadResult

/-- The state-projection part of Read (lines building `state` from the fetched
resource): `none` is the `json.Marshal` failure path, `some st` the encoded
state.  `marshal` is the external `json.Marshal` on the stored api-bridge
value. -/
def readFlattenState (marshal : JsonVal → Option String) (name rg : String)
    (gw : CommunicationsGateway) : Option CommunicationsGatewayModel :=
  let state0 : CommunicationsGatewayModel :=
    { Name := name
      ResourceGroupName := rg
      Location := location_Normalize gw.Location }
  let withProps : Option CommunicationsGatewayModel :=
    match gw.Properties with
    | none => some state0
    | some properties =>
      let codecsValue : String :=
        match properties.Codecs with
        | some (c :: _) => c
        | _ => ""
      let apiBridgeState : Option String :=
        match properties.ApiBridge with
        | some (some j) => marshal j
        | _ => some ""
      match apiBridgeState with
      | none => none
      | some apiStr =>
        some { state0 with
          Connectivity := properties.Connectivity
          Codecs := codecsValue
          E911Type := properties.E911Type
          Platforms := flattenCommunicationsPlatformModel properties.Platforms
          ServiceLocation :=
            flattenServiceRegionPropertiesModel (some properties.ServiceLocations)
          AutoGeneratedDomainNameLabelScope :=
            match properties.AutoGeneratedDomainNameLabelScope with
            | some v => v
            | none => state0.AutoGeneratedDomainNameLabelScope
          ApiBridge := apiStr
          EmergencyDialStrings :=
            match properties.EmergencyDialStrings with
            | some l => some l
            | none => state0.EmergencyDialStrings
          OnPremMcpEnabled :=
            match properties.OnPremMcpEnabled with
            | some b => b
            | none => false
          MicrosoftTeamsVoicemailPilotNumber :=
            match properties.TeamsVoicemailPilotNumber with
            | some v => v
            | none => "" }
  match withProps with
  | none => none
  | some st =>
    some { st with
      Tags := match gw.Tags with
        | some t => t
        | none => st.Tags }

/-- The Read reconciler.  `getHasError`/`getWasNotFound` summarise
`client.Get`'s error and `response.WasNotFound`; `respModel` is the returned
body. -/
def readFunc (marshal : JsonVal → Option String) (name rg : String)
    (getHasError getWasNotFound : Bool)
    (respModel : Option CommunicationsGateway) : ReadResult :=
  if getHasError then
    if getWasNotFound then .markedGone else .errRetrieving
  else
    match respModel with
    | none => .errModelNil
    | some gw =>
      match readFlattenState marshal name rg gw with
      | none => .errMarshal
      | some st => .ok st

/-- The Expand-then-Flatten round trip: the payload Create would send for the
model, projected back into the flat model by Read's state projection; `none`
when Create would not reach the remote call or Read's marshal step fails. -/
def roundTrip (parse : String → Option (Option JsonVal))
    (marshal : JsonVal → Option String)
    (model : CommunicationsGatewayModel) :
    Option CommunicationsGatewayModel :=
  match createFunc parse model true true with
  | CreateResult.ok payload =>
    readFlattenState marshal model.Name model.ResourceGroupName payload
  | _ => none

/-- A concrete, fully-populated model used to exercise the translators. -/
def sampleModel : CommunicationsGatewayModel :=
  { Name := "gw1"
    ResourceGroupName := "rg1"
    ApiBridge := ""
    AutoGeneratedDomainNameLabelScope := "TenantReuse"
    Codecs := "PCMA"
    Connectivity := "PublicAddress"
    E911Type := "DirectToEsrp"
    EmergencyDialStrings := some ["911"]
    Location := "eastus"
    OnPremMcpEnabled := true
    Platforms := some ["OperatorConnect"]
    ServiceLocation := some
      [{ Location := "eastus"
         OperatorAddresses := some ["10.0.0.1"]
         AllowedMediaSourceAddressPrefixes := some ["10.1.0.0"]
         AllowedSignalingSourceAddressPrefixes := some ["10.2.0.0"]
         EsrpAddresses := some ["10.3.0.1"] }]
    Tags := [("env", "test")]
    MicrosoftTeamsVoicemailPilotNumber := "5" }

/-- A concrete model with an explicitly empty (non-nil) platforms list and a
nil service-location list. -/
def emptyPlatformsModel : CommunicationsGatewayModel :=
  { Codecs := "PCMA"
    E911Type := "Standard"
    Location := "eastus"
    Platforms := some []
    ServiceLocation := none }

/-- C3: when the existence probe finds the resource (no error, not
not-found), Create returns the import-required signal, and in particular
never reaches the `ok` outcome that issues the mutating `CreateOrUpdate`
remote call. -/
theorem create_found_requires_import
    (parse : String → Option (Option JsonVal))
    (model : CommunicationsGatewayModel) :
    createFunc parse model false false = CreateResult.requiresImport ∧
      ∀ payload, createFunc parse model false false ≠
        CreateResult.ok payload := by
  refine ⟨rfl, fun payload h => ?_⟩
  exact CreateResult.noConfusion h

/-- Witness for C3 at a concrete input. -/
theorem create_found_requires_import_witness :
    createFunc (fun _ => none) {} false false = CreateResult.requiresImport ∧
      createFunc (fun _ => none) {} false false ≠
        CreateResult.ok (createPayload {} none) :=
  have h := create_found_requires_import (fun _ => none) {}
  ⟨h.1, h.2 (createPayload {} none)⟩

/-- C7: when the pre-read fetch fails with not-found, Read marks the tracked
instance gone (a non-error outcome); when it fails in any other way, Read
returns the fatal retrieval error. -/
theorem read_not_found_tolerance
    (marshal : JsonVal → Option String) (name rg : String)
    (respModel : Option CommunicationsGateway) :
    readFunc marshal name rg true true respModel = ReadResult.markedGone ∧
      readFunc marshal name rg true false respModel =
        ReadResult.errRetrieving :=
  ⟨rfl, rfl⟩

/-- C10: flattening is asymmetric about absence — a nil or empty remote
platforms collection flattens to the absent (nil) model collection, while a
nil remote service-locations pointer flattens to a non-nil empty model
list. -/
theorem flatten_absence_asymmetry :
    flattenCommunicationsPlatformModel none = none ∧
    flattenCommunicationsPlatformModel (some []) = none ∧
    flattenServiceRegionPropertiesModel none = some [] :=
  ⟨rfl, rfl, rfl⟩

/-- C9: expanding the platforms list maps it element-wise into the remote
enumeration type; a nil or empty input yields the absent (nil) remote
collection, and no input ever yields a non-nil empty remote collection. -/
theorem expand_platforms_empty_absent :
    expandCommunicationsPlatformModel none = none ∧
    expandCommunicationsPlatformModel (some []) = none ∧
    (∀ l : List String, l ≠ [] →
      expandCommunicationsPlatformModel (some l) =
        some (l.map (fun v => v))) ∧
    ∀ input : GoSlice String,
      expandCommunicationsPlatformModel input ≠ some [] := by
  refine ⟨rfl, rfl, fun l hl => ?_, fun input h => ?_⟩
  · have hlen : ¬goLen (some l) = 0 := by
      simpa [goLen, goList] using hl
    simp [expandCommunicationsPlatformModel, hlen, goList]
  · match input with
    | none => exact Option.noConfusion h
    | some [] => exact Option.noConfusion (h : (none : GoSlice String) = _)
    | some (a :: t) =>
      simp [expandCommunicationsPlatformModel, goLen, goList] at h

/-- Witness for C9 at a concrete input. -/
theorem expand_platforms_empty_absent_witness :
    expandCommunicationsPlatformModel (some ["OperatorConnect"]) =
      some ["OperatorConnect"] :=
  expand_platforms_empty_absent.2.2.1 ["OperatorConnect"] (by decide)

/-- C6: expanding the service locations maps each entry independently; the
three optional address lists go through `utils.StringSlice`, which sends the
nil slice to the nil pointer and any non-nil slice (in particular the empty
one) to a non-nil pointer to the same elements, while the operator addresses
are passed through without the wrapper. -/
theorem expand_service_locations_entrywise
    (inputList : GoSlice ServiceRegionPropertiesModel) :
    (∀ l : List String, utils_StringSlice (some l) = some l) ∧
    utils_StringSlice none = none ∧
    ∃ outs : List ServiceRegionProperties,
      expandServiceRegionPropertiesModel inputList = some outs ∧
      List.Forall₂ (fun (v : ServiceRegionPropertiesModel)
          (o : ServiceRegionProperties) =>
        o.PrimaryRegionProperties.AllowedMediaSourceAddressPrefixes =
            utils_StringSlice v.AllowedMediaSourceAddressPrefixes ∧
        o.PrimaryRegionProperties.AllowedSignalingSourceAddressPrefixes =
            utils_StringSlice v.AllowedSignalingSourceAddressPrefixes ∧
        o.PrimaryRegionProperties.EsrpAddresses =
            utils_StringSlice v.EsrpAddresses ∧
        o.PrimaryRegionProperties.OperatorAddresses = v.OperatorAddresses)
        (goList inputList) outs := by
  refine ⟨fun l => rfl, rfl, (goList inputList).map expandServiceRegionEntry,
    rfl, ?_⟩
  induction goList inputList with
  | nil => exact List.Forall₂.nil
  | cons v t ih => exact List.Forall₂.cons ⟨rfl, rfl, rfl, rfl⟩ ih

theorem customizeDiffLoop_standard_isSome (name : String)
    (l : List ServiceRegionPropertiesModel) :
    (customizeDiffLoop name E911TypeStandard l).isSome = true ↔
      ∃ sls ∈ l, 0 < goLen sls.EsrpAddresses := by
  induction l with
  | nil => simp [customizeDiffLoop]
  | cons sls rest ih =>
    by_cases h : 0 < goLen sls.EsrpAddresses
    · simp [customizeDiffLoop, h]
    · simp [customizeDiffLoop, h, ih]

theorem customizeDiffLoop_direct_isSome (name e911 : String)
    (hne : e911 ≠ E911TypeStandard)
    (l : List ServiceRegionPropertiesModel) :
    (customizeDiffLoop name e911 l).isSome = true ↔
      ∃ sls ∈ l, goLen sls.EsrpAddresses = 0 := by
  induction l with
  | nil => simp [customizeDiffLoop]
  | cons sls rest ih =>
    by_cases h : goLen sls.EsrpAddresses = 0
    · simp [customizeDiffLoop, hne, h]
    · simp [customizeDiffLoop, hne, h, ih]

/-- C1: for a model whose emergency mode is one of the two schema-permitted
values, the pre-mutation validation errors exactly when some service-location
entry violates the ESRP rule: Standard with a non-empty ESRP list, or
DirectToEsrp with an empty one. -/
theorem customizeDiff_error_iff (model : CommunicationsGatewayModel)
    (hE : model.E911Type = E911TypeStandard ∨
      model.E911Type = E911TypeDirectToEsrp) :
    (customizeDiffFunc model).isSome = true ↔
      ∃ sls ∈ goList model.ServiceLocation,
        (model.E911Type = E911TypeStandard ∧
          0 < goLen sls.EsrpAddresses) ∨
        (model.E911Type = E911TypeDirectToEsrp ∧
          goLen sls.EsrpAddresses = 0) := by
  have hdist : E911TypeDirectToEsrp ≠ E911TypeStandard := by decide
  rcases hE with h | h
  · rw [show customizeDiffFunc model =
        customizeDiffLoop model.Name model.E911Type
          (goList model.ServiceLocation) from rfl, h]
    rw [customizeDiffLoop_standard_isSome]
    constructor
    · rintro ⟨sls, hm, hlen⟩
      exact ⟨sls, hm, Or.inl ⟨rfl, hlen⟩⟩
    · rintro ⟨sls, hm, (⟨-, hlen⟩ | ⟨hd, -⟩)⟩
      · exact ⟨sls, hm, hlen⟩
      · exact absurd hd (fun hc => hdist hc.symm)
  · rw [show customizeDiffFunc model =
        customizeDiffLoop model.Name model.E911Type
          (goList model.ServiceLocation) from rfl, h]
    rw [customizeDiffLoop_direct_isSome model.Name _ hdist]
    constructor
    · rintro ⟨sls, hm, hlen⟩
      exact ⟨sls, hm, Or.inr ⟨rfl, hlen⟩⟩
    · rintro ⟨sls, hm, (⟨hs, -⟩ | ⟨-, hlen⟩)⟩
      · exact absurd hs hdist
      · exact ⟨sls, hm, hlen⟩

/-- Witness for C1 at a concrete input: Standard mode with a non-empty ESRP
list in one entry is rejected. -/
theorem customizeDiff_error_iff_witness :
    (customizeDiffFunc
      { E911Type := "Standard",
        ServiceLocation :=
          some [{ EsrpAddresses := some ["10.0.0.1"] }] }).isSome = true :=
  (customizeDiff_error_iff _ (Or.inl rfl)).mpr
    ⟨_, List.mem_singleton.mpr rfl, Or.inl ⟨rfl, by decide⟩⟩

/-- C2: when only `codecs` is marked changed, the resource Update sends to
`CreateOrUpdate` is exactly the pre-update fetched resource with only the
`Codecs` sub-field overwritten; every other sub-field (and the top-level
tags, location and identity fields) keeps its fetched value. -/
theorem update_only_codecs_frame
    (parse : String → Option (Option JsonVal))
    (model : CommunicationsGatewayModel)
    (gw : CommunicationsGateway) (p : CommunicationsGatewayProperties)
    (h : gw.Properties = some p) :
    updateFunc parse (fun f => f == "codecs") model false (some gw) =
      UpdateResult.ok { gw with
        Properties := some { p with Codecs := some [model.Codecs] } } := by
  cases gw with
  | mk Id Loc Nm Props SD Tg Ty =>
    dsimp only at h
    subst h
    rfl

/-- Witness for C2 at a concrete input. -/
theorem update_only_codecs_frame_witness :
    updateFunc (fun _ => none) (fun f => f == "codecs")
      { Codecs := "PCMA" } false (some { Properties := some {} }) =
      UpdateResult.ok { Properties := some { Codecs := some ["PCMA"] } } :=
  update_only_codecs_frame (fun _ => none) { Codecs := "PCMA" }
    { Properties := some {} } {} rfl

/-- C4: the empty api-bridge input is handled asymmetrically — Create sends
`ApiBridge` as a non-nil pointer to the nil interface value (explicit null,
field present), while Update with `api_bridge` marked changed sends
`ApiBridge` as the nil pointer (field cleared). -/
theorem apiBridge_create_update_asymmetry
    (parse : String → Option (Option JsonVal))
    (model : CommunicationsGatewayModel)
    (gw : CommunicationsGateway) (p : CommunicationsGatewayProperties)
    (hgw : gw.Properties = some p)
    (hA : model.ApiBridge = "") :
    (∃ payload props,
      createFunc parse model true true = CreateResult.ok payload ∧
      payload.Properties = some props ∧ props.ApiBridge = some none) ∧
    (∃ payload props,
      updateFunc parse (fun f => f == "api_bridge") model false (some gw) =
        UpdateResult.ok payload ∧
      payload.Properties = some props ∧ props.ApiBridge = none) := by
  cases gw with
  | mk Id Loc Nm Props SD Tg Ty =>
    dsimp only at hgw
    subst hgw
    constructor
    · refine ⟨createPayload model none, _, ?_, rfl, rfl⟩
      simp only [createFunc, hA]
      rfl
    · refine ⟨CommunicationsGateway.mk Id Loc Nm
        (some { p with ApiBridge := none }) SD Tg Ty,
        { p with ApiBridge := none }, ?_, rfl, rfl⟩
      simp only [updateFunc, hA]
      rfl

/-- Witness for C4 at a concrete input. -/
theorem apiBridge_create_update_asymmetry_witness :
    (∃ payload props,
      createFunc (fun _ => none) {} true true = CreateResult.ok payload ∧
      payload.Properties = some props ∧ props.ApiBridge = some none) ∧
    (∃ payload props,
      updateFunc (fun _ => none) (fun f => f == "api_bridge") {} false
        (some { Properties := some {} }) = UpdateResult.ok payload ∧
      payload.Properties = some props ∧ props.ApiBridge = none) :=
  apiBridge_create_update_asymmetry (fun _ => none) {}
    { Properties := some {} } {} rfl rfl

/-- C8: a non-empty api-bridge input that fails to decode as JSON aborts both
Create and Update (with `api_bridge` marked changed) with the decode error;
in particular neither reaches the `ok` outcome that issues the mutating
`CreateOrUpdate` remote call. -/
theorem apiBridge_parse_failure_blocks
    (parse : String → Option (Option JsonVal))
    (changed : String → Bool)
    (model : CommunicationsGatewayModel)
    (gw : CommunicationsGateway) (p : CommunicationsGatewayProperties)
    (hgw : gw.Properties = some p)
    (hne : model.ApiBridge ≠ "")
    (hparse : parse model.ApiBridge = none)
    (hchg : changed "api_bridge" = true) :
    (createFunc parse model true true = CreateResult.errApiBridge ∧
      ∀ payload, createFunc parse model true true ≠
        CreateResult.ok payload) ∧
    (updateFunc parse changed model false (some gw) =
        UpdateResult.errApiBridge ∧
      ∀ payload, updateFunc parse changed model false (some gw) ≠
        UpdateResult.ok payload) := by
  cases gw with
  | mk Id Loc Nm Props SD Tg Ty =>
    dsimp only at hgw
    subst hgw
    have hcreate : createFunc parse model true true =
        CreateResult.errApiBridge := by
      simp [createFunc, hne, hparse]
    have hupdate : updateFunc parse changed model false
        (some (CommunicationsGateway.mk Id Loc Nm (some p) SD Tg Ty)) =
        UpdateResult.errApiBridge := by
      simp [updateFunc, hne, hparse, hchg]
    refine ⟨⟨hcreate, fun payload h => ?_⟩, hupdate, fun payload h => ?_⟩
    · rw [hcreate] at h
      exact CreateResult.noConfusion h
    · rw [hupdate] at h
      exact UpdateResult.noConfusion h

/-- Witness for C8 at a concrete input. -/
theorem apiBridge_parse_failure_blocks_witness :
    createFunc (fun _ => none) { ApiBridge := "x" } true true =
        CreateResult.errApiBridge ∧
    updateFunc (fun _ => none) (fun f => f == "api_bridge")
        { ApiBridge := "x" } false (some { Properties := some {} }) =
      UpdateResult.errApiBridge :=
  have h := apiBridge_parse_failure_blocks (fun _ => none)
    (fun f => f == "api_bridge") { ApiBridge := "x" }
    { Properties := some {} } {} rfl (by decide) rfl rfl
  ⟨h.1.1, h.2.1⟩

theorem flatten_expand_platforms (input : GoSlice String)
    (h : input = none ∨ goLen input ≠ 0) :
    flattenCommunicationsPlatformModel
      (expandCommunicationsPlatformModel input) = input := by
  match input with
  | none => rfl
  | some [] =>
    rcases h with h | h
    · exact Option.noConfusion h
    · exact absurd rfl h
  | some (a :: t) =>
    simp [expandCommunicationsPlatformModel,
      flattenCommunicationsPlatformModel, goLen, goList]

theorem flatten_expand_entry (v : ServiceRegionPropertiesModel)
    (hv : location_Normalize v.Location = v.Location) :
    flattenServiceRegionEntry (expandServiceRegionEntry v) = v := by
  obtain ⟨loc, oa, med, sig, esrp⟩ := v
  simp only at hv
  cases oa <;> cases med <;> cases sig <;> cases esrp <;>
    simp [expandServiceRegionEntry, flattenServiceRegionEntry,
      utils_StringSlice, hv]

theorem flatten_expand_entries (l : List ServiceRegionPropertiesModel)
    (h : ∀ v ∈ l, location_Normalize v.Location = v.Location) :
    (l.map expandServiceRegionEntry).map flattenServiceRegionEntry = l := by
  induction l with
  | nil => rfl
  | cons v t ih =>
    have hv := h v (List.mem_cons_self v t)
    have ht := ih (fun w hw => h w (List.mem_cons_of_mem v hw))
    simp only [List.map_cons, flatten_expand_entry v hv, ht]

theorem flatten_expand_service_locations
    (input : GoSlice ServiceRegionPropertiesModel)
    (hnn : input ≠ none)
    (h : ∀ v ∈ goList input, location_Normalize v.Location = v.Location) :
    flattenServiceRegionPropertiesModel
      (some (expandServiceRegionPropertiesModel input)) = input := by
  match input with
  | none => exact absurd rfl hnn
  | some l =>
    show some ((l.map expandServiceRegionEntry).map flattenServiceRegionEntry)
      = some l
    exact congrArg some (flatten_expand_entries l h)

theorem readFlatten_createPayload
    (marshal : JsonVal → Option String)
    (model : CommunicationsGatewayModel) (v : Option JsonVal) (s : String)
    (hs : (match v with
      | some j => marshal j
      | none => some "") = some s)
    (hloc : location_Normalize model.Location = model.Location)
    (hsl : ∀ w ∈ goList model.ServiceLocation,
      location_Normalize w.Location = w.Location)
    (hplat : model.Platforms = none ∨ goLen model.Platforms ≠ 0)
    (hslnn : model.ServiceLocation ≠ none) :
    readFlattenState marshal model.Name model.ResourceGroupName
      (createPayload model v) = some { model with ApiBridge := s } := by
  obtain ⟨nm, rgn, ab, scope, cod, conn, e9, eds, loc, onprem, plat, sl,
    tags, vm⟩ := model
  simp only at hloc hslnn hsl hplat
  have hplat2 := flatten_expand_platforms plat hplat
  have hsl2 := flatten_expand_service_locations sl hslnn hsl
  cases v with
  | none =>
    injection hs with hs'
    subst hs'
    cases eds <;>
      simp [readFlattenState, createPayload, hloc, hplat2, hsl2]
  | some j =>
    have hs2 : marshal j = some s := hs
    cases eds <;>
      simp [readFlattenState, createPayload, hs2, hloc, hplat2, hsl2]

/-- C5 (amended): for a model with a single codec value, fully-populated
(non-nil, non-empty) address lists in every service-location entry,
normalized location strings, a non-nil service-location list and a platforms
list that is nil or non-empty, Expand (Create's payload construction)
followed by Flatten (Read's state projection) reproduces the model exactly.
The opaque api-bridge blob is covered by the claim's stated exception in the
only way the code loses it: the hypothesis `hab` asks that the input be
empty, or decode to a non-null JSON value that the external serializer
re-serializes to the same string (the spec's "round-tripped through
parse/re-serialize"); the excluded case — a non-empty input decoding to JSON
null — is precisely the absence-vs-null distinction the claim does not
require to round-trip. -/
theorem expand_flatten_roundtrip
    (parse : String → Option (Option JsonVal))
    (marshal : JsonVal → Option String)
    (model : CommunicationsGatewayModel)
    (payload : CommunicationsGateway)
    (hloc : location_Normalize model.Location = model.Location)
    (hsl : ∀ v ∈ goList model.ServiceLocation,
      location_Normalize v.Location = v.Location ∧
      (v.OperatorAddresses ≠ none ∧ goLen v.OperatorAddresses ≠ 0) ∧
      (v.AllowedMediaSourceAddressPrefixes ≠ none ∧
        goLen v.AllowedMediaSourceAddressPrefixes ≠ 0) ∧
      (v.AllowedSignalingSourceAddressPrefixes ≠ none ∧
        goLen v.AllowedSignalingSourceAddressPrefixes ≠ 0) ∧
      (v.EsrpAddresses ≠ none ∧ goLen v.EsrpAddresses ≠ 0))
    (hplat : model.Platforms = none ∨ goLen model.Platforms ≠ 0)
    (hslnn : model.ServiceLocation ≠ none)
    (hab : model.ApiBridge = "" ∨
      ∃ j, parse model.ApiBridge = some (some j) ∧
        marshal j = some model.ApiBridge)
    (hcreate : createFunc parse model true true = CreateResult.ok payload) :
    readFlattenState marshal model.Name model.ResourceGroupName payload
      = some model := by
  have hc2 : (match (if model.ApiBridge ≠ "" then parse model.ApiBridge
      else some none) with
    | none => CreateResult.errApiBridge
    | some v => CreateResult.ok (createPayload model v)) =
      CreateResult.ok payload := hcreate
  by_cases hA : model.ApiBridge = ""
  · rw [if_neg (fun hne => hne hA)] at hc2
    have hc3 : CreateResult.ok (createPayload model none) =
        CreateResult.ok payload := hc2
    injection hc3 with hpay
    subst hpay
    have h := readFlatten_createPayload marshal model none "" rfl hloc
      (fun w hw => (hsl w hw).1) hplat hslnn
    rw [h, ← hA]
  · rcases hab with hA2 | ⟨j, hpj, hmj⟩
    · exact absurd hA2 hA
    · rw [if_pos hA, hpj] at hc2
      have hc3 : CreateResult.ok (createPayload model (some j)) =
          CreateResult.ok payload := hc2
      injection hc3 with hpay
      subst hpay
      have h := readFlatten_createPayload marshal model (some j)
        model.ApiBridge hmj hloc (fun w hw => (hsl w hw).1) hplat hslnn
      rw [h]

/-- Witness for C5 (amended) at a concrete input. -/
theorem expand_flatten_roundtrip_witness :
    readFlattenState (fun _ => some "null") "gw1" "rg1"
      (createPayload sampleModel none) = some sampleModel :=
  expand_flatten_roundtrip (fun _ => none) (fun _ => some "null")
    sampleModel (createPayload sampleModel none)
    rfl (by decide) (Or.inr (by decide)) (by decide) (Or.inl rfl) rfl

/-- Counterexample to C5 as stated: a model with an explicitly empty
(non-nil) platforms list and a nil service-location list vacuously satisfies
the claim's conditions (single codec, fully-populated address lists in every
entry, normalized locations) yet does not round-trip — the platforms come
back nil (absent) and the service locations come back as a non-nil empty
list — so the result differs from the original in fields the claim's stated
exceptions do not cover. -/
theorem expand_flatten_roundtrip_counterexample :
    (roundTrip (fun _ => none) (fun _ => some "null")
        emptyPlatformsModel).map
        CommunicationsGatewayModel.Platforms = some none ∧
    (roundTrip (fun _ => none) (fun _ => some "null")
        emptyPlatformsModel).map
        CommunicationsGatewayModel.ServiceLocation = some (some []) ∧
    emptyPlatformsModel.Platforms = some [] ∧
    emptyPlatformsModel.ServiceLocation = none ∧
    roundTrip (fun _ => none) (fun _ => some "null") emptyPlatformsModel ≠
      some emptyPlatformsModel := by
  refine ⟨rfl, rfl, rfl, rfl, ?_⟩
  decide

end VoiceServices
